import Mathlib

/-!
Verification of the CodeRefine application (src/codeeee.py): a shallow
embedding of the credential store, the sandboxed execution runner and the
analysis-response parser, together with theorems about their behavior.

Python strings are modelled as Lean strings; character-level operations
(strip, upper, lower, substring search, the two regular expressions used by
the parser) are modelled as total functions over lists of characters, for
the ASCII range that the application actually manipulates. Effects of the
original functions (temporary-file creation and deletion, subprocess
spawning, persistence of the user store) are made explicit as fields of the
result records, and the outcome of each external call (the interpreter
subprocess, the chat-completion API) is an explicit parameter.
-/

namespace CodeRefine

/-- Whitespace characters removed by the Python str.strip method and matched
by the whitespace class of the regular expressions (ASCII range). -/
def isPyWs (c : Char) : Bool :=
  c = ' ' || c = '\t' || c = '\n' || c = '\r' || c = '\x0b' || c = '\x0c'

/-- Remove leading and trailing whitespace from a character list, as the
Python str.strip method does. -/
def stripL (s : List Char) : List Char :=
  ((s.dropWhile isPyWs).reverse.dropWhile isPyWs).reverse

/-- The Python expression code.strip() on strings. -/
def pyStrip (s : String) : String := String.mk (stripL s.data)

/-- The Python str.upper method, character by character (ASCII). -/
def pyUpper (s : String) : String := String.mk (s.data.map Char.toUpper)

/-- beginsWith needle hay is true when needle is an initial segment of hay. -/
def beginsWith : List Char → List Char → Bool
  | [], _ => true
  | _ :: _, [] => false
  | a :: as, b :: bs => a = b && beginsWith as bs

/-- containsSub needle hay: the Python substring membership test. -/
def containsSub (needle : List Char) : List Char → Bool
  | [] => needle.isEmpty
  | c :: t => beginsWith needle (c :: t) || containsSub needle t

/-- The Python substring membership test on strings: needle in hay. -/
def strContains (hay needle : String) : Bool := containsSub needle.data hay.data

/-- The leftmost-match rule of re.search: try the matcher at every start
position from left to right and return the first success. -/
def searchFrom {α : Type} (m : List Char → Option α) : List Char → Option α
  | [] => m []
  | s@(_ :: t) =>
    match m s with
    | some g => some g
    | none => searchFrom m t

/-- The backtick character, written by code point. -/
def btick : Char := Char.ofNat 96

/-- A triple backtick fence. -/
def fenceTicks : List Char := [btick, btick, btick]

/-- Word characters of the word class of the fenced-code regular expression
(ASCII range). -/
def isWordChar (c : Char) : Bool :=
  ('a' ≤ c && c ≤ 'z') || ('A' ≤ c && c ≤ 'Z') || ('0' ≤ c && c ≤ '9') || c = '_'

/-- Content before the earliest newline-plus-fence close, mirroring the lazy
captured group of the fenced-code regular expression under the DOTALL flag. -/
def closeSplit : List Char → Option (List Char)
  | [] => none
  | c :: t =>
    if c = '\n' && beginsWith fenceTicks t then some []
    else (closeSplit t).map (fun g => c :: g)

/-- Match the fenced-code regular expression of analyze_code_short (a triple
fence, an optional run of word characters, a newline, a lazily captured body,
a newline and a closing triple fence) at the head of the input, returning the
captured body. -/
def fenceAt (s : List Char) : Option (List Char) :=
  if beginsWith fenceTicks s then
    match (s.drop 3).dropWhile isWordChar with
    | '\n' :: body => closeSplit body
    | _ => none
  else none

/-- Case-insensitive match of a literal key (given in upper case) at the head
of the input, returning the remainder; this is the IGNORECASE rule restricted
to ASCII letters. -/
def dropCI : List Char → List Char → Option (List Char)
  | [], s => some s
  | _ :: _, [] => none
  | k :: ks, c :: cs => if c.toUpper = k then dropCI ks cs else none

/-- Characters of the colon-or-whitespace class in the complexity regular
expression. -/
def isColonWs (c : Char) : Bool := c = ':' || isPyWs c

/-- Greedy capture of one or more characters other than a closing
parenthesis, followed by the mandatory closing parenthesis. -/
def grpClose (s : List Char) : Option (List Char) :=
  let g := s.takeWhile (fun c => !(c = ')'))
  if g.isEmpty then none
  else
    match s.dropWhile (fun c => !(c = ')')) with
    | ')' :: _ => some g
    | _ => none

/-- Match the complexity regular expression of analyze_code_short (a
case-insensitive literal key, one or more colon-or-whitespace characters, the
letter O, an open parenthesis, a captured run of non-parenthesis characters
and a closing parenthesis) at the head of the input. -/
def cxAt (key : List Char) (s : List Char) : Option (List Char) :=
  match dropCI key s with
  | none => none
  | some rest =>
    match rest with
    | [] => none
    | c :: cs =>
      if isColonWs c then
        match cs.dropWhile isColonWs with
        | o :: p :: body => if o.toUpper = 'O' && p = '(' then grpClose body else none
        | _ => none
      else none

/-- The literal key of the time-complexity regular expression. -/
def timeKey : List Char := "TIME COMPLEXITY".data

/-- The literal key of the space-complexity regular expression. -/
def spaceKey : List Char := "SPACE COMPLEXITY".data

/-- The error-status classification of analyze_code_short: the reply is
reported clean exactly when its upper-cased text contains NO ERRORS and does
not contain ERRORS FOUND. -/
def classifyErrors (analysis : String) : String :=
  if strContains (pyUpper analysis) "NO ERRORS" &&
      !(strContains (pyUpper analysis) "ERRORS FOUND") then
    "✅ NO ERRORS DETECTED"
  else
    "❌ ERRORS FOUND"

/-- The corrected-code extraction of analyze_code_short: search for the first
fenced block, strip its body, and replace it by a canned message when the
stripped body mentions no correction (case-insensitively); when no fenced
block exists, report that no corrections are needed. -/
def extractCorrected (analysis : String) : String :=
  match searchFrom fenceAt analysis.data with
  | some g =>
    let corrected := stripL g
    if containsSub "no correction".data (corrected.map Char.toLower) then
      "No corrections needed - code is clean!"
    else String.mk corrected
  | none => "No corrections needed"

/-- The time-complexity field of analyze_code_short. -/
def timeComplexityOf (analysis : String) : String :=
  match searchFrom (cxAt timeKey) analysis.data with
  | some g => "O(" ++ String.mk (stripL g) ++ ")"
  | none => "Not analyzed"

/-- The space-complexity field of analyze_code_short. -/
def spaceComplexityOf (analysis : String) : String :=
  match searchFrom (cxAt spaceKey) analysis.data with
  | some g => "O(" ++ String.mk (stripL g) ++ ")"
  | none => "Not analyzed"

/-- Outcome of the interpreter subprocess call made by run_code: either the
process completed with a return code and captured streams, or the five-second
wall-clock timeout expired, or the interpreter binary was missing (the
FileNotFoundError case, carrying the exception text). -/
inductive ExecOutcome where
  | completed (returncode : Int) (stdout stderr : String)
  | timedOut
  | fileNotFound (emsg : String)
deriving DecidableEq

/-- Result of run_code: the pair of returned strings together with the
explicit effects of the call — whether a temporary file was created, whether
it was deleted again before the call returned, and whether the subprocess
call was invoked at all. -/
structure RunResult where
  output : String × String
  tempCreated : Bool
  tempDeleted : Bool
  spawned : Bool
deriving DecidableEq

/-- The sandboxed execution runner run_code of src/codeeee.py. The blank-code
check comes first; for Python and JavaScript a temporary file is written, the
interpreter is invoked, and the try-finally discipline of the source deletes
the temporary file on the success, failure, timeout and missing-interpreter
paths alike; any other language is rejected without touching the filesystem
or spawning a process. For Python a missing interpreter falls through to the
generic exception handler of the source; for JavaScript it is caught by the
dedicated FileNotFoundError handler. -/
def run_code (code language : String) (outcome : ExecOutcome) : RunResult :=
  if pyStrip code = "" then
    { output := ("⚠️ No code to run!", ""), tempCreated := false,
      tempDeleted := false, spawned := false }
  else if language = "Python" then
    match outcome with
    | ExecOutcome.completed rc out err =>
      if rc = 0 then
        { output := ("✅ Execution Successful\n\n" ++ out, out),
          tempCreated := true, tempDeleted := true, spawned := true }
      else
        { output := ("❌ Execution Failed\n\n" ++ err, err),
          tempCreated := true, tempDeleted := true, spawned := true }
    | ExecOutcome.timedOut =>
      { output := ("❌ Execution timeout! Code took too long to run.", ""),
        tempCreated := true, tempDeleted := true, spawned := true }
    | ExecOutcome.fileNotFound e =>
      { output := ("❌ Execution error: " ++ e, ""),
        tempCreated := true, tempDeleted := true, spawned := true }
  else if language = "JavaScript" then
    match outcome with
    | ExecOutcome.completed rc out err =>
      if rc = 0 then
        { output := ("✅ Execution Successful\n\n" ++ out, out),
          tempCreated := true, tempDeleted := true, spawned := true }
      else
        { output := ("❌ Execution Failed\n\n" ++ err, err),
          tempCreated := true, tempDeleted := true, spawned := true }
    | ExecOutcome.timedOut =>
      { output := ("❌ Execution timeout! Code took too long to run.", ""),
        tempCreated := true, tempDeleted := true, spawned := true }
    | ExecOutcome.fileNotFound _ =>
      { output := ("❌ Node.js not installed! Only Python execution is available.", ""),
        tempCreated := true, tempDeleted := true, spawned := true }
  else
    { output := ("⚠️ Code execution for " ++ language ++
        " is not supported yet. Only Python and JavaScript are supported.", ""),
      tempCreated := false, tempDeleted := false, spawned := false }

/-- A record of the user store: password, creation timestamp and number of
completed analyses, as created by signup and mutated by analyze_code_short. -/
structure UserRec where
  password : String
  created_at : String
  analyses_count : Nat
deriving DecidableEq

/-- The user store, an association list modelling the users_db dictionary. -/
abbrev UsersDb := List (String × UserRec)

/-- Dictionary lookup in the user store. -/
def dbLookup (db : UsersDb) (u : String) : Option UserRec :=
  match db with
  | [] => none
  | (k, r) :: t => if k = u then some r else dbLookup t u

/-- The Python membership test username in users_db. -/
def dbMember (db : UsersDb) (u : String) : Bool := (dbLookup db u).isSome

/-- Number of records stored under a given username. -/
def dbCount (db : UsersDb) (u : String) : Nat :=
  match db with
  | [] => 0
  | (k, _) :: t => (if k = u then 1 else 0) + dbCount t u

/-- Dictionary assignment users_db
    updated at a key: replace the first record under the key, or append a new
    one when the key is absent. -/
def dbSet (db : UsersDb) (u : String) (r : UserRec) : UsersDb :=
  match db with
  | [] => [(u, r)]
  | (k, r0) :: t => if k = u then (k, r) :: t else (k, r0) :: dbSet t u r

/-- The process-wide mutable state of the application: the user store, the
current-user marker set by login, and whether the model client has been
configured. -/
structure AppState where
  users_db : UsersDb
  current_user : Option String
  client : Bool
deriving DecidableEq

/-- The signup handler of src/codeeee.py. It returns the status message, the
visibility update for the main page (none models the Python None) and the
resulting process state. -/
def signup (st : AppState) (now username password confirm_password : String) :
    String × Option Bool × AppState :=
  if username = "" ∨ password = "" then
    ("❌ Username and password are required!", none, st)
  else if password ≠ confirm_password then
    ("❌ Passwords do not match!", none, st)
  else if password.length < 6 then
    ("❌ Password must be at least 6 characters!", none, st)
  else if dbMember st.users_db username then
    ("❌ Username already exists! Please login.", none, st)
  else
    ("✅ Account created successfully! Welcome " ++ username ++ "!", some true,
      { st with users_db :=
          (dbSet st.users_db username
            { password := password, created_at := now, analyses_count := 0 }) })

/-- The login handler of src/codeeee.py. It returns the status message, the
two visibility updates and the resulting process state; a successful login
sets the process-wide current user. -/
def login (st : AppState) (username password : String) :
    String × Option Bool × Option Bool × AppState :=
  if username = "" ∨ password = "" then
    ("❌ Username and password are required!", none, none, st)
  else
    match dbLookup st.users_db username with
    | none => ("❌ User not found! Please signup first.", none, none, st)
    | some r =>
      if r.password ≠ password then
        ("❌ Incorrect password!", none, none, st)
      else
        ("✅ Welcome back, " ++ username ++ "!", some true, some false,
          { st with current_user := some username })

/-- The initialize_groq handler: it fails when the SDK is unavailable or the
key is blank, and otherwise configures the client. The client constructor of
the SDK merely stores the key, so it is modelled as non-failing. -/
def initialize_groq (st : AppState) (api_key : String) (groqAvailable : Bool) :
    String × AppState :=
  if groqAvailable = false then
    ("❌ Error: Groq SDK not installed. Run: pip install groq", st)
  else if api_key = "" ∨ pyStrip api_key = "" then
    ("⚠️ Please enter a valid API key", st)
  else
    ("✅ API Key configured successfully!", { st with client := true })

/-- Result of analyze_code_short: the five returned strings, the resulting
process state, whether the chat-completion API was invoked, and whether the
user store was persisted by save_users. -/
structure AnalyzeResult where
  outputs : String × String × String × String × String
  st : AppState
  calledApi : Bool
  savedUsers : Bool
deriving DecidableEq

/-- Continuation of analyze_code_short after the client-initialization step:
the client check, the blank-code check, the model call, the parsing of the
reply and the per-user statistics update of the source. The reply of the
chat-completion call is the chatReply parameter (an exception raised by the
call is the error case, handled by the outer exception handler of the
source). -/
def analyze_after_init (st : AppState) (user code : String)
    (chatReply : Except String String) (now : String) : AnalyzeResult :=
  if st.client = false then
    { outputs := ("⚠️ Please set your Groq API key first!", "⚠️ API Key Required",
        "", "", "⚠️ Configure API Key"),
      st := st, calledApi := false, savedUsers := false }
  else if pyStrip code = "" then
    { outputs := ("⚠️ Please enter code to analyze!", "⚠️ No Code", "", "",
        "⚠️ Code Required"),
      st := st, calledApi := false, savedUsers := false }
  else
    match chatReply with
    | Except.error e =>
      { outputs := ("❌ Error: " ++ e, "❌ ANALYSIS FAILED", "", "",
          "❌ Failed: " ++ e),
        st := st, calledApi := true, savedUsers := false }
    | Except.ok analysis =>
      let complexity_display :=
        "⏱️ Time: " ++ timeComplexityOf analysis ++ "  |  💾 Space: " ++
          spaceComplexityOf analysis
      let status_display := "✅ Completed at " ++ now
      match dbLookup st.users_db user with
      | some q =>
        { outputs := (analysis, classifyErrors analysis, extractCorrected analysis,
            complexity_display, status_display),
          st := { st with users_db :=
              (dbSet st.users_db user
                { password := q.password, created_at := q.created_at,
                  analyses_count := q.analyses_count + 1 }) },
          calledApi := true, savedUsers := true }
      | none =>
        { outputs := (analysis, classifyErrors analysis, extractCorrected analysis,
            complexity_display, status_display),
          st := st, calledApi := true, savedUsers := false }

/-- The analyze_code_short handler of src/codeeee.py: the login gate comes
first; inside the exception-handling block the client is initialized from the
supplied key when needed, and on success the flow continues with the model
call and the parsing of the reply. -/
def analyze_code_short (st : AppState) (code language api_key : String)
    (groqAvailable : Bool) (chatReply : Except String String) (now : String) :
    AnalyzeResult :=
  match st.current_user with
  | none =>
    { outputs := ("⚠️ Please login first!", "⚠️ Login Required", "", "",
        "⚠️ Login Required"),
      st := st, calledApi := false, savedUsers := false }
  | some user =>
    if st.client = false ∧ api_key ≠ "" then
      let init := initialize_groq st api_key groqAvailable
      if strContains init.1 "❌" || strContains init.1 "⚠️" then
        { outputs := (init.1, "⚠️ API Key Required", "", "", "⚠️ Configure API Key"),
          st := init.2, calledApi := false, savedUsers := false }
      else
        analyze_after_init init.2 user code chatReply now
    else
      analyze_after_init st user code chatReply now

/-! ## Helper lemmas -/

theorem searchFrom_nil {α : Type} (m : List Char → Option α) :
    searchFrom m [] = m [] := rfl

theorem searchFrom_cons {α : Type} (m : List Char → Option α) (c : Char)
    (t : List Char) :
    searchFrom m (c :: t) =
      (match m (c :: t) with
       | some g => some g
       | none => searchFrom m t) := rfl

/-- A search that fails, fails at every start position. -/
theorem searchFrom_eq_none_iff {α : Type} (m : List Char → Option α)
    (s : List Char) :
    searchFrom m s = none ↔ ∀ i, m (s.drop i) = none := by
  induction s with
  | nil =>
    simp only [searchFrom_nil, List.drop_nil]
    exact ⟨fun h i => h, fun h => h 0⟩
  | cons c t ih =>
    rw [searchFrom_cons]
    cases hm : m (c :: t) with
    | some g =>
      simp only []
      constructor
      · intro h; exact absurd h (by simp)
      · intro h
        have h0 := h 0
        simp only [List.drop_zero] at h0
        rw [hm] at h0
        exact absurd h0 (by simp)
    | none =>
      simp only []
      constructor
      · intro h i
        cases i with
        | zero => simpa using hm
        | succ j => exact ih.mp h j
      · intro h
        exact ih.mpr (fun j => h (j + 1))

/-- A successful search returns the match at the leftmost matching start
position: the first match in the sense of re.search. -/
theorem searchFrom_eq_some_iff {α : Type} (m : List Char → Option α)
    (s : List Char) (g : α) :
    searchFrom m s = some g ↔
      ∃ i, m (s.drop i) = some g ∧ ∀ j, j < i → m (s.drop j) = none := by
  induction s with
  | nil =>
    simp only [searchFrom_nil, List.drop_nil]
    constructor
    · intro h
      exact ⟨0, h, fun j hj => absurd hj (Nat.not_lt_zero j)⟩
    · rintro ⟨i, hi, _⟩
      exact hi
  | cons c t ih =>
    rw [searchFrom_cons]
    cases hm : m (c :: t) with
    | some g0 =>
      simp only []
      constructor
      · intro h
        refine ⟨0, ?_, fun j hj => absurd hj (Nat.not_lt_zero j)⟩
        simpa [hm] using h
      · rintro ⟨i, hi, hbefore⟩
        cases i with
        | zero =>
          simp only [List.drop_zero] at hi
          rw [hm] at hi
          exact hi
        | succ j =>
          have h0 := hbefore 0 (Nat.succ_pos j)
          simp only [List.drop_zero] at h0
          rw [hm] at h0
          exact absurd h0 (by simp)
    | none =>
      simp only []
      rw [ih]
      constructor
      · rintro ⟨i, hi, hbefore⟩
        refine ⟨i + 1, hi, ?_⟩
        intro j hj
        cases j with
        | zero => simpa using hm
        | succ j0 => exact hbefore j0 (Nat.lt_of_succ_lt_succ hj)
      · rintro ⟨i, hi, hbefore⟩
        cases i with
        | zero =>
          simp only [List.drop_zero] at hi
          rw [hm] at hi
          exact absurd hi (by simp)
        | succ j =>
          exact ⟨j, hi, fun j0 hj0 => hbefore (j0 + 1) (Nat.succ_lt_succ hj0)⟩

/-- Looking up a key right after setting it yields the new record. -/
theorem dbLookup_dbSet_self (db : UsersDb) (u : String) (r : UserRec) :
    dbLookup (dbSet db u r) u = some r := by
  induction db with
  | nil => simp [dbSet, dbLookup]
  | cons p t ih =>
    obtain ⟨k, r0⟩ := p
    by_cases h : k = u
    · simp [dbSet, dbLookup, h]
    · simp [dbSet, dbLookup, h, ih]

/-- An absent key has no records. -/
theorem dbCount_eq_zero_of_lookup_none (db : UsersDb) (u : String)
    (h : dbLookup db u = none) : dbCount db u = 0 := by
  induction db with
  | nil => rfl
  | cons p t ih =>
    obtain ⟨k, r0⟩ := p
    by_cases hk : k = u
    · simp [dbLookup, hk] at h
    · simp only [dbLookup, hk, if_false, if_neg hk] at h ⊢
      simp [dbCount, hk, ih h]

/-- Setting an absent key stores exactly one record under it. -/
theorem dbCount_dbSet_of_lookup_none (db : UsersDb) (u : String) (r : UserRec)
    (h : dbLookup db u = none) : dbCount (dbSet db u r) u = 1 := by
  induction db with
  | nil => simp [dbSet, dbCount]
  | cons p t ih =>
    obtain ⟨k, r0⟩ := p
    by_cases hk : k = u
    · simp [dbLookup, hk] at h
    · simp only [dbLookup, if_neg hk] at h
      simp [dbSet, dbCount, hk, ih h]

/-- dbMember is the lookup test. -/
theorem dbMember_eq_false_iff (db : UsersDb) (u : String) :
    dbMember db u = false ↔ dbLookup db u = none := by
  unfold dbMember
  cases dbLookup db u <;> simp

/-- initialize_groq never touches the user store. -/
theorem initialize_groq_users_db (st : AppState) (api_key : String)
    (ga : Bool) : (initialize_groq st api_key ga).2.users_db = st.users_db := by
  unfold initialize_groq
  split
  · rfl
  · split <;> rfl

/-- initialize_groq never touches the current user. -/
theorem initialize_groq_current_user (st : AppState) (api_key : String)
    (ga : Bool) :
    (initialize_groq st api_key ga).2.current_user = st.current_user := by
  unfold initialize_groq
  split
  · rfl
  · split <;> rfl

/-! ## Claims about the sandboxed execution runner -/

/-- C1: for every code string whose execution exceeds the timeout in a
supported language, run_code returns the distinct timed-out signal and the
temporary file it created is deleted before the call returns; more generally
the temporary file is deleted on every exit path of run_code (success,
non-zero exit, timeout or missing interpreter binary). -/
theorem run_code_timeout_cleanup (code language : String)
    (outcome : ExecOutcome) :
    ((language = "Python" ∨ language = "JavaScript") → pyStrip code ≠ "" →
      (run_code code language ExecOutcome.timedOut).output =
        ("❌ Execution timeout! Code took too long to run.", "") ∧
      (run_code code language ExecOutcome.timedOut).tempCreated = true ∧
      (run_code code language ExecOutcome.timedOut).tempDeleted = true) ∧
    ((run_code code language outcome).tempCreated = true →
      (run_code code language outcome).tempDeleted = true) := by
  constructor
  · rintro (h | h) hc <;> subst h <;> simp [run_code, hc]
  · unfold run_code
    split
    · simp
    · split
      · cases outcome with
        | completed rc out err =>
          by_cases h : rc = 0 <;> simp [h]
        | timedOut => simp
        | fileNotFound e => simp
      · split
        · cases outcome with
          | completed rc out err =>
            by_cases h : rc = 0 <;> simp [h]
          | timedOut => simp
          | fileNotFound e => simp
        · simp

theorem run_code_timeout_cleanup_witness :
    pyStrip "import time\ntime.sleep(10)" ≠ "" ∧
    ((run_code "import time\ntime.sleep(10)" "Python" ExecOutcome.timedOut).output =
        ("❌ Execution timeout! Code took too long to run.", "") ∧
      (run_code "import time\ntime.sleep(10)" "Python" ExecOutcome.timedOut).tempCreated = true ∧
      (run_code "import time\ntime.sleep(10)" "Python" ExecOutcome.timedOut).tempDeleted = true) :=
  ⟨by decide,
    (run_code_timeout_cleanup "import time\ntime.sleep(10)" "Python"
        ExecOutcome.timedOut).1 (Or.inl rfl) (by decide)⟩

/-- C2 counterexample: for the empty code string and the unsupported language
Java, run_code answers with the nothing-to-run signal, not with the
not-supported signal, so the claim fails as stated for empty code. -/
theorem run_code_unsupported_counterexample :
    (run_code "" "Java" (ExecOutcome.completed 0 "" "")).output.1 =
      "⚠️ No code to run!" ∧
    (run_code "" "Java" (ExecOutcome.completed 0 "" "")).output.1 ≠
      "⚠️ Code execution for Java is not supported yet. Only Python and JavaScript are supported." := by
  exact ⟨rfl, by decide⟩

/-- C2 (amended): for every non-blank code string and a declared language
outside Python and JavaScript, run_code returns the not-supported signal;
for every code string and such a language it spawns no subprocess and writes
no temporary file. -/
theorem run_code_unsupported (code language : String) (outcome : ExecOutcome)
    (h1 : language ≠ "Python") (h2 : language ≠ "JavaScript") :
    (pyStrip code ≠ "" →
      (run_code code language outcome).output =
        ("⚠️ Code execution for " ++ language ++
          " is not supported yet. Only Python and JavaScript are supported.", "")) ∧
    (run_code code language outcome).spawned = false ∧
    (run_code code language outcome).tempCreated = false := by
  unfold run_code
  by_cases hc : pyStrip code = ""
  · rw [if_pos hc]
    exact ⟨fun hcc => absurd hc hcc, rfl, rfl⟩
  · rw [if_neg hc, if_neg h1, if_neg h2]
    exact ⟨fun _ => rfl, rfl, rfl⟩

theorem run_code_unsupported_witness :
    pyStrip "print(1)" ≠ "" ∧
    (run_code "print(1)" "Java" ExecOutcome.timedOut).output =
      ("⚠️ Code execution for Java is not supported yet. Only Python and JavaScript are supported.", "") ∧
    (run_code "print(1)" "Java" ExecOutcome.timedOut).spawned = false :=
  ⟨by decide,
    (run_code_unsupported "print(1)" "Java" ExecOutcome.timedOut (by decide)
        (by decide)).1 (by decide),
    (run_code_unsupported "print(1)" "Java" ExecOutcome.timedOut (by decide)
        (by decide)).2.1⟩

/-- C5: for every code string that is empty or whitespace-only, run_code
returns the nothing-to-run signal at once, for every declared language and
every subprocess outcome, without writing a temporary file and without
spawning a subprocess. -/
theorem run_code_empty_input (code language : String) (outcome : ExecOutcome)
    (h : pyStrip code = "") :
    run_code code language outcome =
      { output := ("⚠️ No code to run!", ""), tempCreated := false,
        tempDeleted := false, spawned := false } := by
  unfold run_code
  rw [if_pos h]

theorem run_code_empty_input_witness :
    pyStrip " \n\t " = "" ∧
    run_code " \n\t " "Java" (ExecOutcome.completed 0 "" "") =
      { output := ("⚠️ No code to run!", ""), tempCreated := false,
        tempDeleted := false, spawned := false } :=
  ⟨by decide,
    run_code_empty_input " \n\t " "Java" (ExecOutcome.completed 0 "" "")
      (by decide)⟩

/-! ## Claims about the credential store -/

/-- C6: starting from a store without the username, a first valid signup
inserts exactly one record (the one built from the first call), and a second
signup with the same username and otherwise valid inputs reports the
duplicate-user failure and leaves the state unchanged. -/
theorem signup_duplicate (st : AppState) (now1 now2 u p1 c1 p2 c2 : String)
    (hu : u ≠ "") (hp1 : p1 ≠ "") (hc1 : p1 = c1) (hl1 : 6 ≤ p1.length)
    (habs : dbMember st.users_db u = false)
    (hp2 : p2 ≠ "") (hc2 : p2 = c2) (hl2 : 6 ≤ p2.length) :
    (signup ((signup st now1 u p1 c1).2.2) now2 u p2 c2).1 =
      "❌ Username already exists! Please login." ∧
    (signup ((signup st now1 u p1 c1).2.2) now2 u p2 c2).2.2 =
      (signup st now1 u p1 c1).2.2 ∧
    dbLookup ((signup st now1 u p1 c1).2.2).users_db u =
      some { password := p1, created_at := now1, analyses_count := 0 } ∧
    dbCount ((signup st now1 u p1 c1).2.2).users_db u = 1 := by
  have hlook : dbLookup st.users_db u = none := (dbMember_eq_false_iff _ _).mp habs
  have hfirst : (signup st now1 u p1 c1).2.2 =
      { st with users_db :=
          (dbSet st.users_db u
            { password := p1, created_at := now1, analyses_count := 0 }) } := by
    unfold signup
    rw [if_neg (by rintro (h | h) <;> [exact hu h; exact hp1 h])]
    rw [if_neg (show ¬(p1 ≠ c1) from fun h => h hc1)]
    rw [if_neg (Nat.not_lt.mpr hl1)]
    rw [if_neg (by simp [habs])]
  have hmem2 : dbMember ((signup st now1 u p1 c1).2.2).users_db u = true := by
    rw [hfirst]
    simp [dbMember, dbLookup_dbSet_self]
  have hgen2 : ∀ st1 : AppState, dbMember st1.users_db u = true →
      signup st1 now2 u p2 c2 =
        ("❌ Username already exists! Please login.", none, st1) := by
    intro st1 hm
    unfold signup
    rw [if_neg (by rintro (h | h) <;> [exact hu h; exact hp2 h])]
    rw [if_neg (show ¬(p2 ≠ c2) from fun h => h hc2)]
    rw [if_neg (Nat.not_lt.mpr hl2)]
    rw [if_pos hm]
  have hsecond := hgen2 _ hmem2
  refine ⟨by rw [hsecond], by rw [hsecond], ?_, ?_⟩
  · rw [hfirst]
    exact dbLookup_dbSet_self st.users_db u _
  · rw [hfirst]
    exact dbCount_dbSet_of_lookup_none st.users_db u _ hlook

theorem signup_duplicate_witness :
    (signup ((signup { users_db := [], current_user := none, client := false }
          "2024-01-01 10:00:00" "alice" "secret1" "secret1").2.2)
        "2024-01-01 10:05:00" "alice" "secret2" "secret2").1 =
      "❌ Username already exists! Please login." ∧
    dbCount ((signup { users_db := [], current_user := none, client := false }
          "2024-01-01 10:00:00" "alice" "secret1" "secret1").2.2).users_db
        "alice" = 1 := by
  have h := signup_duplicate
    { users_db := [], current_user := none, client := false }
    "2024-01-01 10:00:00" "2024-01-01 10:05:00" "alice" "secret1" "secret1"
    "secret2" "secret2" (by decide) (by decide) rfl (by decide) (by decide)
    (by decide) rfl (by decide)
  exact ⟨h.1, h.2.2.2⟩

/-- C7 counterexample: for the empty username (absent from the empty store)
login answers with the required-fields message, not with the user-not-found
message, so the claim fails as stated when it quantifies over every username
and password. -/
theorem login_empty_counterexample :
    dbLookup ([] : UsersDb) "" = none ∧
    (login { users_db := [], current_user := none, client := false }
        "" "secret").1 = "❌ Username and password are required!" ∧
    (login { users_db := [], current_user := none, client := false }
        "" "secret").1 ≠ "❌ User not found! Please signup first." := by
  exact ⟨rfl, rfl, by decide⟩

/-- C7 (amended): for every nonempty username and nonempty password, login
fails with the user-not-found message when the username is absent, fails with
the wrong-password message (and not the user-not-found message) when the
username exists with a different stored password, and otherwise succeeds and
sets the process-wide current user; moreover a valid signup followed by a
login with the same credentials succeeds. -/
theorem login_classification (st : AppState) (u p now : String)
    (hu : u ≠ "") (hp : p ≠ "") :
    (dbLookup st.users_db u = none →
      login st u p = ("❌ User not found! Please signup first.", none, none, st)) ∧
    (∀ r, dbLookup st.users_db u = some r → r.password ≠ p →
      login st u p = ("❌ Incorrect password!", none, none, st)) ∧
    (∀ r, dbLookup st.users_db u = some r → r.password = p →
      (login st u p).1 = "✅ Welcome back, " ++ u ++ "!" ∧
      ((login st u p).2.2.2).current_user = some u) ∧
    (6 ≤ p.length → dbMember st.users_db u = false →
      (login ((signup st now u p p).2.2) u p).1 = "✅ Welcome back, " ++ u ++ "!" ∧
      ((login ((signup st now u p p).2.2) u p).2.2.2).current_user = some u) := by
  have hne : ¬(u = "" ∨ p = "") := by rintro (h | h) <;> [exact hu h; exact hp h]
  have hgen : ∀ st1 : AppState, ∀ r, dbLookup st1.users_db u = some r →
      r.password = p →
      (login st1 u p).1 = "✅ Welcome back, " ++ u ++ "!" ∧
      ((login st1 u p).2.2.2).current_user = some u := by
    intro st1 r hl hpw
    have hnp : ¬(r.password ≠ p) := fun h => h hpw
    unfold login
    rw [if_neg hne]
    simp only [hl]
    rw [if_neg hnp]
    exact ⟨rfl, rfl⟩
  refine ⟨?_, ?_, ?_, ?_⟩
  · intro hlook
    unfold login
    rw [if_neg hne]
    simp only [hlook]
  · intro r hlook hpw
    unfold login
    rw [if_neg hne]
    simp only [hlook]
    rw [if_pos hpw]
  · intro r hlook hpw
    exact hgen st r hlook hpw
  · intro hlen habs
    have hlook : dbLookup st.users_db u = none := (dbMember_eq_false_iff _ _).mp habs
    have hfirst : (signup st now u p p).2.2 =
        { st with users_db :=
            (dbSet st.users_db u
              { password := p, created_at := now, analyses_count := 0 }) } := by
      unfold signup
      rw [if_neg hne]
      rw [if_neg (show ¬(p ≠ p) from fun h => h rfl)]
      rw [if_neg (Nat.not_lt.mpr hlen)]
      rw [if_neg (by simp [habs])]
    refine hgen _ { password := p, created_at := now, analyses_count := 0 } ?_ rfl
    rw [hfirst]
    exact dbLookup_dbSet_self st.users_db u _

theorem login_classification_witness :
    (login ((signup { users_db := [], current_user := none, client := false }
          "2024-01-01 10:00:00" "alice" "secret1" "secret1").2.2)
        "alice" "secret1").1 = "✅ Welcome back, alice!" ∧
    ((login ((signup { users_db := [], current_user := none, client := false }
          "2024-01-01 10:00:00" "alice" "secret1" "secret1").2.2)
        "alice" "secret1").2.2.2).current_user = some "alice" := by
  have h := (login_classification
    { users_db := [], current_user := none, client := false }
    "alice" "secret1" "2024-01-01 10:00:00" (by decide) (by decide)).2.2.2
    (by decide) (by decide)
  exact ⟨h.1, h.2⟩

/-- C10: signup never modifies the process-wide current user: after any
signup call, successful or failed, the current user equals what it was
before the call. -/
theorem signup_preserves_current_user (st : AppState)
    (now username password confirm_password : String) :
    ((signup st now username password confirm_password).2.2).current_user =
      st.current_user := by
  unfold signup
  split
  · rfl
  · split
    · rfl
    · split
      · rfl
      · split <;> rfl

/-! ## Claims about the response parser -/

/-- C3 counterexample: a reply containing only the lower-case words no errors
is classified as clean although the literal phrase NO ERRORS does not occur
in the reply, so the claim fails as stated: the comparison in the source is
performed on the upper-cased reply, hence case-insensitively. -/
theorem error_status_counterexample :
    classifyErrors "we found no errors here" = "✅ NO ERRORS DETECTED" ∧
    strContains "we found no errors here" "NO ERRORS" = false := by
  exact ⟨rfl, rfl⟩

/-- C3 (amended): the parser classifies the status as clean exactly when the
upper-cased reply contains NO ERRORS and does not contain ERRORS FOUND — a
case-insensitive substring test; every other reply is classified as having
errors found. In particular a reply containing a fenced code block and the
text NO ERRORS, without ERRORS FOUND anywhere (in any letter case), is
classified clean. -/
theorem error_status_classification (reply : String) :
    (classifyErrors reply = "✅ NO ERRORS DETECTED" ↔
      strContains (pyUpper reply) "NO ERRORS" = true ∧
      strContains (pyUpper reply) "ERRORS FOUND" = false) ∧
    (classifyErrors reply = "✅ NO ERRORS DETECTED" ∨
      classifyErrors reply = "❌ ERRORS FOUND") ∧
    ((searchFrom fenceAt reply.data).isSome = true →
      strContains (pyUpper reply) "NO ERRORS" = true →
      strContains (pyUpper reply) "ERRORS FOUND" = false →
      classifyErrors reply = "✅ NO ERRORS DETECTED") := by
  have hne : ("✅ NO ERRORS DETECTED" : String) ≠ "❌ ERRORS FOUND" := by decide
  cases h1 : strContains (pyUpper reply) "NO ERRORS" <;>
    cases h2 : strContains (pyUpper reply) "ERRORS FOUND" <;>
      simp [classifyErrors, h1, h2, hne]

theorem error_status_classification_witness :
    classifyErrors "**CORRECTED CODE:**\n```python\nprint(1)\n```\nNO ERRORS" =
      "✅ NO ERRORS DETECTED" :=
  (error_status_classification
      "**CORRECTED CODE:**\n```python\nprint(1)\n```\nNO ERRORS").2.2
    (by decide) (by decide) (by decide)

/-- C4 counterexample: when the first fenced block of the reply has the body
No corrections needed, the corrected-code field is the canned message, not
the verbatim body, so the claim fails as stated: the source strips the body
and replaces it whenever it mentions no correction case-insensitively. -/
theorem corrected_code_counterexample :
    searchFrom fenceAt ("Fix:\n```python\nNo corrections needed\n```").data =
      some ("No corrections needed").data ∧
    extractCorrected "Fix:\n```python\nNo corrections needed\n```" =
      "No corrections needed - code is clean!" ∧
    ("No corrections needed - code is clean!" : String) ≠
      "No corrections needed" := by
  exact ⟨rfl, rfl, by decide⟩

/-- C4 (amended): the corrected-code field is the body of the first fenced
code block with leading and trailing whitespace stripped, except that a body
mentioning no correction (case-insensitively) is replaced by the canned
clean-code message; when the reply has no fenced block, the field is the
no-corrections-needed message. The search is the first match of re.search:
a match at a position before which no position matches. -/
theorem corrected_code_extraction (reply : String) :
    (searchFrom fenceAt reply.data = none →
      extractCorrected reply = "No corrections needed") ∧
    (∀ g, searchFrom fenceAt reply.data = some g →
      extractCorrected reply =
        (if containsSub ("no correction").data ((stripL g).map Char.toLower) then
          "No corrections needed - code is clean!"
        else String.mk (stripL g))) ∧
    (∀ g i, fenceAt (reply.data.drop i) = some g →
      (∀ j, j < i → fenceAt (reply.data.drop j) = none) →
      searchFrom fenceAt reply.data = some g) := by
  refine ⟨?_, ?_, ?_⟩
  · intro h
    unfold extractCorrected
    rw [h]
  · intro g h
    unfold extractCorrected
    simp only [h]
  · intro g i h1 h2
    exact (searchFrom_eq_some_iff fenceAt reply.data g).mpr ⟨i, h1, h2⟩

theorem corrected_code_extraction_witness :
    searchFrom fenceAt ("```js\nlet x=1;\n```").data = some ("let x=1;").data ∧
    extractCorrected "```js\nlet x=1;\n```" = "let x=1;" := by
  have h3 := (corrected_code_extraction "```js\nlet x=1;\n```").2.2
    ("let x=1;").data 0 (by decide) (fun j hj => absurd hj (Nat.not_lt_zero j))
  have h2 := (corrected_code_extraction "```js\nlet x=1;\n```").2.1
    ("let x=1;").data h3
  exact ⟨h3, h2.trans (by decide)⟩

/-- C8: the time-complexity and space-complexity fields come from the first
(leftmost) match of the corresponding case-insensitive regular expression,
rendered as O of the whitespace-stripped captured content; when a pattern has
no match anywhere in the reply, the field is the Not analyzed placeholder. -/
theorem complexity_extraction (reply : String) :
    (searchFrom (cxAt timeKey) reply.data = none →
      timeComplexityOf reply = "Not analyzed") ∧
    (∀ g i, cxAt timeKey (reply.data.drop i) = some g →
      (∀ j, j < i → cxAt timeKey (reply.data.drop j) = none) →
      timeComplexityOf reply = "O(" ++ String.mk (stripL g) ++ ")") ∧
    (searchFrom (cxAt spaceKey) reply.data = none →
      spaceComplexityOf reply = "Not analyzed") ∧
    (∀ g i, cxAt spaceKey (reply.data.drop i) = some g →
      (∀ j, j < i → cxAt spaceKey (reply.data.drop j) = none) →
      spaceComplexityOf reply = "O(" ++ String.mk (stripL g) ++ ")") := by
  refine ⟨?_, ?_, ?_, ?_⟩
  · intro h
    unfold timeComplexityOf
    rw [h]
  · intro g i h1 h2
    have hs : searchFrom (cxAt timeKey) reply.data = some g :=
      (searchFrom_eq_some_iff _ _ _).mpr ⟨i, h1, h2⟩
    unfold timeComplexityOf
    rw [hs]
  · intro h
    unfold spaceComplexityOf
    rw [h]
  · intro g i h1 h2
    have hs : searchFrom (cxAt spaceKey) reply.data = some g :=
      (searchFrom_eq_some_iff _ _ _).mpr ⟨i, h1, h2⟩
    unfold spaceComplexityOf
    rw [hs]

theorem complexity_extraction_witness :
    timeComplexityOf "TIME COMPLEXITY: O( n log n )" = "O(n log n)" ∧
    spaceComplexityOf "TIME COMPLEXITY: O( n log n )" = "Not analyzed" := by
  have h1 := (complexity_extraction "TIME COMPLEXITY: O( n log n )").2.1
    (" n log n ").data 0 (by decide) (fun j hj => absurd hj (Nat.not_lt_zero j))
  have h2 := (complexity_extraction "TIME COMPLEXITY: O( n log n )").2.2.1
    (by decide)
  exact ⟨h1.trans (by decide), h2⟩

/-! ## Claims about the analysis handler -/

/-- Behavior of the post-initialization part of analyze_code_short: the store
is persisted exactly on the successful-analysis path for a stored user, and
then the only change to the store is the increment of the analyses count of
that user. -/
theorem analyze_after_init_spec (st : AppState) (user code : String)
    (chatReply : Except String String) (now : String) :
    ((analyze_after_init st user code chatReply now).savedUsers = true →
      (analyze_after_init st user code chatReply now).calledApi = true ∧
      (∃ a, chatReply = Except.ok a) ∧
      ∃ q, dbLookup st.users_db user = some q ∧
        (analyze_after_init st user code chatReply now).st.users_db =
          dbSet st.users_db user
            { password := q.password, created_at := q.created_at,
              analyses_count := q.analyses_count + 1 }) ∧
    ((analyze_after_init st user code chatReply now).savedUsers = false →
      (analyze_after_init st user code chatReply now).st.users_db =
        st.users_db) ∧
    ((analyze_after_init st user code chatReply now).calledApi = false →
      (analyze_after_init st user code chatReply now).savedUsers = false) ∧
    ((analyze_after_init st user code chatReply now).calledApi = true →
      (∃ a, chatReply = Except.ok a) → dbMember st.users_db user = true →
      (analyze_after_init st user code chatReply now).savedUsers = true) := by
  unfold analyze_after_init
  split
  · simp
  · split
    · simp
    · cases chatReply with
      | error e =>
        refine ⟨?_, fun _ => rfl, fun h => by simp at h, ?_⟩
        · intro h
          simp at h
        · rintro _ ⟨a, ha⟩ _
          exact absurd ha (by simp)
      | ok a =>
        cases hq : dbLookup st.users_db user with
        | some q =>
          refine ⟨fun _ => ⟨rfl, ⟨a, rfl⟩, ⟨q, rfl, rfl⟩⟩, ?_, ?_, ?_⟩
          · intro h
            simp at h
          · intro h
            simp at h
          · intro _ _ _
            rfl
        | none =>
          refine ⟨?_, fun _ => rfl, fun _ => rfl, ?_⟩
          · intro h
            simp at h
          · intro _ _ hm
            simp [dbMember, hq] at hm

/-- Behavior of analyze_code_short for a logged-in user: the store is
persisted exactly on the successful-analysis path, and then the only change
is the increment of the analyses count of that user. -/
theorem analyze_code_short_some_spec (st : AppState)
    (u0 code language api_key : String) (ga : Bool)
    (chatReply : Except String String) (now : String)
    (hcu : st.current_user = some u0) :
    ((analyze_code_short st code language api_key ga chatReply now).savedUsers = true →
      (analyze_code_short st code language api_key ga chatReply now).calledApi = true ∧
      (∃ a, chatReply = Except.ok a) ∧
      ∃ q, dbLookup st.users_db u0 = some q ∧
        (analyze_code_short st code language api_key ga chatReply now).st.users_db =
          dbSet st.users_db u0
            { password := q.password, created_at := q.created_at,
              analyses_count := q.analyses_count + 1 }) ∧
    ((analyze_code_short st code language api_key ga chatReply now).savedUsers = false →
      (analyze_code_short st code language api_key ga chatReply now).st.users_db =
        st.users_db) ∧
    ((analyze_code_short st code language api_key ga chatReply now).calledApi = false →
      (analyze_code_short st code language api_key ga chatReply now).savedUsers = false) ∧
    ((analyze_code_short st code language api_key ga chatReply now).calledApi = true →
      (∃ a, chatReply = Except.ok a) → dbMember st.users_db u0 = true →
      (analyze_code_short st code language api_key ga chatReply now).savedUsers = true) := by
  have hred : analyze_code_short st code language api_key ga chatReply now =
      (if st.client = false ∧ api_key ≠ "" then
        (if strContains (initialize_groq st api_key ga).1 "❌" ||
            strContains (initialize_groq st api_key ga).1 "⚠️" then
          { outputs := ((initialize_groq st api_key ga).1, "⚠️ API Key Required",
              "", "", "⚠️ Configure API Key"),
            st := (initialize_groq st api_key ga).2, calledApi := false,
            savedUsers := false }
        else
          analyze_after_init (initialize_groq st api_key ga).2 u0 code chatReply now)
      else analyze_after_init st u0 code chatReply now) := by
    unfold analyze_code_short
    rw [hcu]
  by_cases hinit : st.client = false ∧ api_key ≠ ""
  · rw [if_pos hinit] at hred
    by_cases hbad : (strContains (initialize_groq st api_key ga).1 "❌" ||
        strContains (initialize_groq st api_key ga).1 "⚠️") = true
    · rw [if_pos hbad] at hred
      refine ⟨?_, ?_, ?_, ?_⟩
      · intro h
        rw [hred] at h
        simp at h
      · intro _
        rw [hred]
        exact initialize_groq_users_db st api_key ga
      · intro _
        rw [hred]
      · intro h
        rw [hred] at h
        simp at h
    · rw [if_neg hbad] at hred
      have hspec := analyze_after_init_spec (initialize_groq st api_key ga).2
        u0 code chatReply now
      rw [initialize_groq_users_db st api_key ga] at hspec
      rw [hred]
      exact hspec
  · rw [if_neg hinit] at hred
    rw [hred]
    exact analyze_after_init_spec st u0 code chatReply now

/-- C9: when no user is logged in, analyze_code_short returns the
login-required warning without calling the model API and without modifying
the user store; the per-user analyses count is incremented and the store
persisted exactly on the successful-analysis path, for the logged-in user. -/
theorem analyze_login_gate_and_count (st : AppState)
    (code language api_key : String) (ga : Bool)
    (chatReply : Except String String) (now : String) :
    (st.current_user = none →
      analyze_code_short st code language api_key ga chatReply now =
        { outputs := ("⚠️ Please login first!", "⚠️ Login Required", "", "",
            "⚠️ Login Required"),
          st := st, calledApi := false, savedUsers := false }) ∧
    ((analyze_code_short st code language api_key ga chatReply now).savedUsers = false →
      (analyze_code_short st code language api_key ga chatReply now).st.users_db =
        st.users_db) ∧
    ((analyze_code_short st code language api_key ga chatReply now).calledApi = false →
      (analyze_code_short st code language api_key ga chatReply now).savedUsers = false) ∧
    (∀ u, st.current_user = some u →
      (analyze_code_short st code language api_key ga chatReply now).savedUsers = true →
      (analyze_code_short st code language api_key ga chatReply now).calledApi = true ∧
      (∃ a, chatReply = Except.ok a) ∧
      ∃ q, dbLookup st.users_db u = some q ∧
        (analyze_code_short st code language api_key ga chatReply now).st.users_db =
          dbSet st.users_db u
            { password := q.password, created_at := q.created_at,
              analyses_count := q.analyses_count + 1 }) ∧
    (∀ u, st.current_user = some u →
      (analyze_code_short st code language api_key ga chatReply now).calledApi = true →
      (∃ a, chatReply = Except.ok a) → dbMember st.users_db u = true →
      (analyze_code_short st code language api_key ga chatReply now).savedUsers = true) := by
  cases hcu : st.current_user with
  | none =>
    have hres : analyze_code_short st code language api_key ga chatReply now =
        { outputs := ("⚠️ Please login first!", "⚠️ Login Required", "", "",
            "⚠️ Login Required"),
          st := st, calledApi := false, savedUsers := false } := by
      unfold analyze_code_short
      rw [hcu]
    refine ⟨fun _ => hres, ?_, ?_, ?_, ?_⟩
    · intro _
      rw [hres]
    · intro _
      rw [hres]
    · intro u hu
      exact absurd hu (by simp)
    · intro u hu
      exact absurd hu (by simp)
  | some u0 =>
    have hspec := analyze_code_short_some_spec st u0 code language api_key ga
      chatReply now hcu
    refine ⟨?_, hspec.2.1, hspec.2.2.1, ?_, ?_⟩
    · intro h
      exact absurd h (by simp)
    · intro u hu
      have : u0 = u := by injection hu
      subst this
      exact hspec.1
    · intro u hu
      have : u0 = u := by injection hu
      subst this
      exact hspec.2.2.2

theorem analyze_login_gate_and_count_witness :
    (analyze_code_short
        ⟨[("alice", ⟨"secret1", "t0", 3⟩)], some "alice", true⟩
        "print(1)" "Python" "" true (Except.ok "NO ERRORS") "t1").savedUsers =
      true ∧
    (analyze_code_short
        ⟨[("alice", ⟨"secret1", "t0", 3⟩)], some "alice", true⟩
        "print(1)" "Python" "" true (Except.ok "NO ERRORS") "t1").st.users_db =
      [("alice", ⟨"secret1", "t0", 4⟩)] := by
  refine ⟨?_, by decide⟩
  exact (analyze_login_gate_and_count
      ⟨[("alice", ⟨"secret1", "t0", 3⟩)], some "alice", true⟩
      "print(1)" "Python" "" true (Except.ok "NO ERRORS") "t1").2.2.2.2
    "alice" rfl (by decide) ⟨"NO ERRORS", rfl⟩ (by decide)

end CodeRefine
